import Mathlib

/-!
# Verification of the NoraAI usage-tracking / quota core

Shallow embedding of the quota subsystem of the `nora-backend` repository:

* `src/types.ts` (tier features): `UserTier`, `TierFeatures`, `getTierFeatures`.
* `src/middleware/usageTracking.ts`: `Usage`, `usageStore`, `COSTS`,
  `TIER_LIMITS`, `getUsageKey`, `getTodayUsage`, `incrementUsage`,
  `checkUsageQuota`, `addUsageStats`.

Modelling conventions:

* The wall clock (`new Date().toISOString().split('T')[0]`) is made an
  explicit `today : String` parameter; the source always produces a
  colon-free ten-character `YYYY-MM-DD` string there.
* The in-memory `Map<string, Usage>` becomes a function
  `Store := String → Option Usage`; `Map.set` is pointwise update.
* Monetary amounts are exact: all cost constants in the source are integer
  multiples of £0.001, so `totalCost` and the `COSTS` table are carried in
  thousandths of a GBP (`GPT35_TEXT = 0.008` ↦ `8`, etc.).
* Tier identifiers are plain strings, matching the dynamic
  `userContext.tier || 'free'` reads and the `TIER_LIMITS[tier]` indexing;
  an object index miss is `Option.none`.
* The Express middleware's try/catch shape is the wrapper
  `quotaMiddleware`, taking the possibly-throwing body as a
  `Store → Except (String × Store) (QuotaOutcome × Store)` (a thrown
  exception carries the store state at the throw point).
-/

namespace Nora

/-- One user's consumption for one calendar day
(`Usage` in usageTracking.ts).  `totalCost` is in thousandths of a GBP. -/
structure Usage where
  date : String
  textMessages : Nat
  voiceMessages : Nat
  screenshotAnalysis : Nat
  scamDetections : Nat
  totalCost : Nat
  deriving Repr, DecidableEq

/-- The in-memory usage store, `Map<string, Usage>` read through `Map.get`. -/
def Store : Type := String → Option Usage

/-- `Map.set key v` on the store. -/
def storeSet (s : Store) (key : String) (v : Usage) : Store :=
  fun k => if k = key then some v else s k

/-- The empty store (fresh process). -/
def emptyStore : Store := fun _ => none

/-- Cost constant `COSTS.GPT35_TEXT` = 0.008 GBP. -/
def COSTS_GPT35_TEXT : Nat := 8

/-- Cost constant `COSTS.GPT4O_TEXT` = 0.025 GBP. -/
def COSTS_GPT4O_TEXT : Nat := 25

/-- Cost constant `COSTS.WHISPER_VOICE` = 0.031 GBP. -/
def COSTS_WHISPER_VOICE : Nat := 31

/-- Cost constant `COSTS.GPT4O_VISION` = 0.045 GBP. -/
def COSTS_GPT4O_VISION : Nat := 45

/-- Numeric limits of one tier (one entry of `TIER_LIMITS`). -/
structure TierLimits where
  maxMessagesPerDay : Int
  maxImageAnalysisPerDay : Int
  deriving Repr, DecidableEq

/-- `TIER_LIMITS.free`. -/
def TIER_LIMITS_free : TierLimits := ⟨20, 0⟩

/-- `TIER_LIMITS.premium` (−1 = unlimited). -/
def TIER_LIMITS_premium : TierLimits := ⟨-1, -1⟩

/-- `TIER_LIMITS.family`. -/
def TIER_LIMITS_family : TierLimits := ⟨-1, -1⟩

/-- Indexing the `TIER_LIMITS` object by a dynamic tier string
(`TIER_LIMITS[tier as keyof typeof TIER_LIMITS]`); a key miss yields
`undefined`, modelled as `none`. -/
def TIER_LIMITS (tier : String) : Option TierLimits :=
  if tier = "free" then some TIER_LIMITS_free
  else if tier = "premium" then some TIER_LIMITS_premium
  else if tier = "family" then some TIER_LIMITS_family
  else none

/-- Feature flags of one tier (`TierFeatures` in types.ts). -/
structure TierFeatures where
  useAdvancedModel : Bool
  screenshotAnalysis : Bool
  scamDetection : Bool
  emergencyFeatures : Bool
  quickActions : Bool
  familyPortal : Bool
  maxMessagesPerDay : Int
  maxImageAnalysisPerDay : Int
  deriving Repr, DecidableEq

/-- `getTierFeatures` from types.ts: `tier === 'premium'` gets the premium
record, every other value the free record. -/
def getTierFeatures (tier : String) : TierFeatures :=
  if tier = "premium" then
    { useAdvancedModel := true
      screenshotAnalysis := true
      scamDetection := true
      emergencyFeatures := true
      quickActions := true
      familyPortal := true
      maxMessagesPerDay := -1
      maxImageAnalysisPerDay := -1 }
  else
    { useAdvancedModel := false
      screenshotAnalysis := false
      scamDetection := false
      emergencyFeatures := false
      quickActions := false
      familyPortal := false
      maxMessagesPerDay := 50
      maxImageAnalysisPerDay := 0 }

/-- `getUsageKey`: the string `userId ++ ":" ++ today`. -/
def getUsageKey (userId : String) (today : String) : String :=
  userId ++ ":" ++ today

/-- The zeroed record `getTodayUsage` creates on first access. -/
def emptyUsage (today : String) : Usage :=
  { date := today, textMessages := 0, voiceMessages := 0
    screenshotAnalysis := 0, scamDetections := 0, totalCost := 0 }

/-- `getTodayUsage`: return the stored record for `userId:today`, or create,
store and return a zeroed one.  Returns the record together with the
(possibly extended) store. -/
def getTodayUsage (userId : String) (today : String) (s : Store) :
    Usage × Store :=
  let key := getUsageKey userId today
  match s key with
  | some existing => (existing, s)
  | none =>
      let newUsage := emptyUsage today
      (newUsage, storeSet s key newUsage)

/-- The four request types of `checkUsageQuota` / `incrementUsage`. -/
inductive RequestType
  | text
  | voice
  | screenshot
  | scam
  deriving Repr, DecidableEq

/-- `incrementUsage`: fetch today's record, bump the counter matching the
request type, add the per-type cost to `totalCost`, store the result. -/
def incrementUsage (userId : String) (type : RequestType) (tier : String)
    (today : String) (s : Store) : Store :=
  let (usage, s1) := getTodayUsage userId today s
  let (usage2, cost) :=
    match type with
    | .text =>
        ({ usage with textMessages := usage.textMessages + 1 },
         if tier = "free" then COSTS_GPT35_TEXT else COSTS_GPT4O_TEXT)
    | .voice =>
        ({ usage with voiceMessages := usage.voiceMessages + 1 },
         COSTS_WHISPER_VOICE)
    | .screenshot =>
        ({ usage with screenshotAnalysis := usage.screenshotAnalysis + 1 },
         COSTS_GPT4O_VISION)
    | .scam =>
        ({ usage with scamDetections := usage.scamDetections + 1 },
         COSTS_GPT4O_VISION)
  let usage3 := { usage2 with totalCost := usage2.totalCost + cost }
  storeSet s1 (getUsageKey userId today) usage3

/-- The cost `incrementUsage` charges for one accepted request, as a
standalone function (specification-side restatement of its `cost` logic). -/
def requestCost (type : RequestType) (tier : String) : Nat :=
  match type with
  | .text => if tier = "free" then COSTS_GPT35_TEXT else COSTS_GPT4O_TEXT
  | .voice => COSTS_WHISPER_VOICE
  | .screenshot => COSTS_GPT4O_VISION
  | .scam => COSTS_GPT4O_VISION

/-- The request fields the quota middleware reads: `req.body.userId` and
`req.body.userContext?.tier`, each possibly absent. -/
structure QuotaRequest where
  userId : Option String
  tier : Option String
  deriving Repr, DecidableEq

/-- The fields of a rejection response the spec names:
`res.status(...).json(...)` with `error`, optional `upgradePrompt`,
`requiresPremium`, `limit`, `current`.  (The free-text `message` field is
omitted.) -/
structure Rejection where
  status : Nat
  error : String
  upgradePrompt : Bool
  requiresPremium : Bool
  limit : Option Int
  current : Option Int
  deriving Repr, DecidableEq

/-- Outcome of the quota middleware: reject with a response, or call
`next()`. -/
inductive QuotaOutcome
  | reject (r : Rejection)
  | allow
  deriving Repr, DecidableEq

/-- Body of the `checkUsageQuota` middleware (inside the `try`):
read user context, fetch today's usage, apply the free-tier checks, and on
pass record the consumption via `incrementUsage`. -/
def checkUsageQuotaCore (type : RequestType) (req : QuotaRequest)
    (today : String) (s : Store) : QuotaOutcome × Store :=
  let tier := req.tier.getD "free"
  let userId := req.userId.getD "anonymous"
  let (usage, s1) := getTodayUsage userId today s
  if tier = "free" then
    let limits := TIER_LIMITS_free
    if type = .text ∨ type = .voice then
      let totalMessages : Int := usage.textMessages + usage.voiceMessages
      if totalMessages ≥ limits.maxMessagesPerDay then
        (.reject { status := 429, error := "Daily limit reached"
                   upgradePrompt := true, requiresPremium := false
                   limit := some limits.maxMessagesPerDay
                   current := some totalMessages }, s1)
      else
        (.allow, incrementUsage userId type tier today s1)
    else
      (.reject { status := 403, error := "Premium feature"
                 upgradePrompt := false, requiresPremium := true
                 limit := none, current := none }, s1)
  else
    (.allow, incrementUsage userId type tier today s1)

/-- The fail-open wrapper of `checkUsageQuota` (its try/catch): run the
body; if it throws (an `Except.error` carrying the message and the store at
the throw point), swallow the error and call `next()` anyway. -/
def quotaMiddleware
    (inner : Store → Except (String × Store) (QuotaOutcome × Store))
    (s : Store) : QuotaOutcome × Store :=
  match inner s with
  | .ok r => r
  | .error (_, s1) => (.allow, s1)

/-- The full `checkUsageQuota(type)` middleware: the core body (which, as
embedded, cannot throw) under the fail-open wrapper. -/
def checkUsageQuota (type : RequestType) (req : QuotaRequest)
    (today : String) (s : Store) : QuotaOutcome × Store :=
  quotaMiddleware (fun st => .ok (checkUsageQuotaCore type req today st)) s

/-- `Number.prototype.toFixed(4)` on a `totalCost` carried in thousandths
of a GBP: the amount is exact at three decimals, so four fraction digits
need no rounding. -/
def toFixed4 (milli : Nat) : String :=
  let frac := toString ((milli % 1000) * 10)
  let pad := String.mk (List.replicate (4 - frac.length) '0')
  toString (milli / 1000) ++ "." ++ pad ++ frac

/-- The `limit` / `remaining` values of the usage block: a number, or the
string sentinel `'unlimited'`. -/
inductive LimitVal
  | unlimited
  | num (n : Int)
  deriving Repr, DecidableEq

/-- The `usage.today` object `addUsageStats` builds. -/
structure UsageToday where
  messages : Nat
  limit : LimitVal
  remaining : LimitVal
  deriving Repr, DecidableEq

/-- The `usage` block `addUsageStats` attaches to the response. -/
structure UsageBlock where
  today : UsageToday
  cost : String
  deriving Repr, DecidableEq

/-- A field value of an outgoing response payload: either an opaque
original value (kept abstract as a string), or the attached usage block. -/
inductive Field
  | base (v : String)
  | usage (u : UsageBlock)
  deriving Repr, DecidableEq

/-- An outgoing JSON payload, as a map from field name to value. -/
def Payload : Type := String → Option Field

/-- The usage snapshot `addUsageStats` computes before spreading it into
the payload: resolve user and tier, fetch today's usage, index
`TIER_LIMITS` by the tier string (`none` = the `undefined` lookup, on which
building the block throws a `TypeError`), and assemble the block. -/
def usageSnapshot (req : QuotaRequest) (today : String) (s : Store) :
    Option (UsageBlock × Store) :=
  let userId := req.userId.getD "anonymous"
  let tier := req.tier.getD "free"
  let (usage, s1) := getTodayUsage userId today s
  match TIER_LIMITS tier with
  | none => none
  | some limits =>
      let messages := usage.textMessages + usage.voiceMessages
      some
        ({ today :=
            { messages := messages
              limit :=
                if limits.maxMessagesPerDay = -1 then .unlimited
                else .num limits.maxMessagesPerDay
              remaining :=
                if limits.maxMessagesPerDay = -1 then .unlimited
                else .num (max 0 (limits.maxMessagesPerDay - messages)) }
           cost := toFixed4 usage.totalCost }, s1)

/-- The `addUsageStats` middleware's wrapped `res.json`: build the
snapshot and return the spread of `data` with `usage` bound to the new
block (the spread copies every field of `data`, then the `usage` key is
overwritten).  `none` models the `TypeError` thrown when the tier string
misses `TIER_LIMITS`. -/
def addUsageStats (req : QuotaRequest) (today : String) (s : Store)
    (data : Payload) : Option (Payload × Store) :=
  (usageSnapshot req today s).map fun p =>
    (fun k => if k = "usage" then some (.usage p.1) else data k, p.2)

/-- The record `incrementUsage` writes back, given the record it read:
the counter matching the request type goes up by one and `requestCost` is
added to `totalCost` (specification-side restatement used in lemmas). -/
def bumpUsage (u : Usage) (type : RequestType) (tier : String) : Usage :=
  match type with
  | .text =>
      { u with textMessages := u.textMessages + 1
               totalCost := u.totalCost + requestCost .text tier }
  | .voice =>
      { u with voiceMessages := u.voiceMessages + 1
               totalCost := u.totalCost + requestCost .voice tier }
  | .screenshot =>
      { u with screenshotAnalysis := u.screenshotAnalysis + 1
               totalCost := u.totalCost + requestCost .screenshot tier }
  | .scam =>
      { u with scamDetections := u.scamDetections + 1
               totalCost := u.totalCost + requestCost .scam tier }

/-- A sequence of accepted requests for one user-day, each recorded through
`incrementUsage` exactly as the gate's accept path does. -/
def applyRequests (userId today : String) (reqs : List (RequestType × String))
    (s : Store) : Store :=
  reqs.foldl (fun st p => incrementUsage userId p.1 p.2 today st) s

/-- Concrete free-tier request used in witnesses. -/
def freeReq : QuotaRequest := ⟨some "elder", some "free"⟩

/-- A usage record with 19 messages sent (witness input). -/
def usage19 : Usage :=
  { date := "2025-06-01", textMessages := 19, voiceMessages := 0
    screenshotAnalysis := 0, scamDetections := 0, totalCost := 152 }

/-- A usage record with 20 messages sent (witness input). -/
def usage20 : Usage :=
  { date := "2025-06-01", textMessages := 20, voiceMessages := 0
    screenshotAnalysis := 0, scamDetections := 0, totalCost := 160 }

/-- Store holding `usage19` for user `elder` on 2025-06-01. -/
def store19 : Store :=
  storeSet emptyStore (getUsageKey "elder" "2025-06-01") usage19

/-- Store holding `usage20` for user `elder` on 2025-06-01. -/
def store20 : Store :=
  storeSet emptyStore (getUsageKey "elder" "2025-06-01") usage20

/-- A base payload that already carries a `usage` field (counterexample
input for the decorator's additivity). -/
def payloadWithUsage : Payload := fun k =>
  if k = "usage" then some (.base "original")
  else if k = "reply" then some (.base "hello") else none

/-- A plain base payload (witness input). -/
def data0 : Payload := fun k =>
  if k = "reply" then some (.base "hi") else none

/-- The usage block the decorator produces for a fresh free user. -/
def block0 : UsageBlock :=
  { today := { messages := 0, limit := .num 20, remaining := .num 20 }
    cost := "0.0000" }

/-- The decorated payload for `data0` and a fresh free user. -/
def out0 : Payload := fun k =>
  if k = "usage" then some (.usage block0) else data0 k

/-- The store after the decorator's first read for user `u` (it creates
today's zeroed record). -/
def s1w : Store :=
  storeSet emptyStore (getUsageKey "u" "2025-06-01") (emptyUsage "2025-06-01")

theorem storeSet_read_same (s : Store) (k : String) (v : Usage) :
    storeSet s k v k = some v := by
  simp [storeSet]

theorem storeSet_read_other (s : Store) (k : String) (v : Usage)
    (k' : String) (h : k' ≠ k) : storeSet s k v k' = s k' := by
  simp [storeSet, h]

theorem getTodayUsage_fst (u t : String) (s : Store) :
    (getTodayUsage u t s).1 = (s (getUsageKey u t)).getD (emptyUsage t) := by
  unfold getTodayUsage
  cases h : s (getUsageKey u t) <;> simp [h]

theorem getTodayUsage_snd_read (u t : String) (s : Store) :
    (getTodayUsage u t s).2 (getUsageKey u t)
      = some (getTodayUsage u t s).1 := by
  unfold getTodayUsage
  cases h : s (getUsageKey u t) <;> simp [h, storeSet_read_same]

theorem getTodayUsage_snd_other (u t : String) (s : Store) (k : String)
    (h : k ≠ getUsageKey u t) : (getTodayUsage u t s).2 k = s k := by
  unfold getTodayUsage
  cases h2 : s (getUsageKey u t) <;> simp [h2, storeSet_read_other _ _ _ _ h]

theorem getTodayUsage_idem (u t : String) (s : Store) :
    getTodayUsage u t ((getTodayUsage u t s).2)
      = ((getTodayUsage u t s).1, (getTodayUsage u t s).2) := by
  have hr := getTodayUsage_snd_read u t s
  unfold getTodayUsage at *
  cases h : s (getUsageKey u t) <;> simp [h] at hr ⊢
  simp [hr]

theorem incrementUsage_eq (u : String) (ty : RequestType) (tier : String)
    (t : String) (s : Store) :
    incrementUsage u ty tier t s
      = storeSet ((getTodayUsage u t s).2) (getUsageKey u t)
          (bumpUsage (getTodayUsage u t s).1 ty tier) := by
  unfold incrementUsage bumpUsage requestCost
  cases ty <;> rfl

theorem incrementUsage_read_same (u : String) (ty : RequestType)
    (tier : String) (t : String) (s : Store) :
    incrementUsage u ty tier t s (getUsageKey u t)
      = some (bumpUsage (getTodayUsage u t s).1 ty tier) := by
  rw [incrementUsage_eq]
  exact storeSet_read_same _ _ _

theorem incrementUsage_read_other (u : String) (ty : RequestType)
    (tier : String) (t : String) (s : Store) (k : String)
    (h : k ≠ getUsageKey u t) : incrementUsage u ty tier t s k = s k := by
  rw [incrementUsage_eq, storeSet_read_other _ _ _ _ h]
  exact getTodayUsage_snd_other u t s k h

theorem getTodayUsage_after_increment (u : String) (ty : RequestType)
    (tier : String) (t : String) (s : Store) :
    (getTodayUsage u t (incrementUsage u ty tier t s)).1
      = bumpUsage (getTodayUsage u t s).1 ty tier := by
  rw [getTodayUsage_fst, incrementUsage_read_same]
  rfl

theorem bumpUsage_totalCost (u : Usage) (ty : RequestType) (tier : String) :
    (bumpUsage u ty tier).totalCost = u.totalCost + requestCost ty tier := by
  cases ty <;> rfl

theorem applyRequests_totalCost (userId today : String)
    (reqs : List (RequestType × String)) (s : Store) :
    (getTodayUsage userId today (applyRequests userId today reqs s)).1.totalCost
      = (getTodayUsage userId today s).1.totalCost
        + (reqs.map fun p => requestCost p.1 p.2).sum := by
  induction reqs generalizing s with
  | nil => simp [applyRequests]
  | cons p ps ih =>
      have hstep : applyRequests userId today (p :: ps) s
          = applyRequests userId today ps
              (incrementUsage userId p.1 p.2 today s) := rfl
      rw [hstep, ih, getTodayUsage_after_increment, bumpUsage_totalCost]
      simp [List.map_cons, List.sum_cons]
      omega

theorem stringOfData (a b : String) (h : a.data = b.data) : a = b := by
  cases a; cases b; simp only at h; rw [h]

theorem getUsageKey_inj (u1 d1 u2 d2 : String) (hd : d1.length = d2.length)
    (h : getUsageKey u1 d1 = getUsageKey u2 d2) : u1 = u2 ∧ d1 = d2 := by
  unfold getUsageKey at h
  have hdata : (u1.data ++ [':']) ++ d1.data = (u2.data ++ [':']) ++ d2.data := by
    have h2 := congrArg String.data h
    simpa [String.data_append] using h2
  have h3 := List.append_inj' hdata hd
  have h4 := List.append_inj' h3.1
    (by rfl : ([':'] : List Char).length = ([':'] : List Char).length)
  exact ⟨stringOfData _ _ h4.1, stringOfData _ _ h3.2⟩

theorem usageSnapshot_stable (req : QuotaRequest) (today : String) (s : Store)
    (b : UsageBlock) (s1 : Store)
    (h : usageSnapshot req today s = some (b, s1)) :
    usageSnapshot req today s1 = some (b, s1) := by
  have hidem := getTodayUsage_idem (req.userId.getD "anonymous") today s
  unfold usageSnapshot at h ⊢
  dsimp only at h ⊢
  rcases hgt : getTodayUsage (req.userId.getD "anonymous") today s with ⟨usage, s'⟩
  rw [hgt] at h hidem
  dsimp only at h hidem
  cases hl : TIER_LIMITS (req.tier.getD "free") with
  | none => rw [hl] at h; simp at h
  | some limits =>
      rw [hl] at h
      simp only [Option.some_inj, Prod.mk.injEq] at h
      obtain ⟨hb, hs⟩ := h
      subst hs
      rw [hidem]
      dsimp only
      rw [hb]

/-- C1: for a free-tier user, while `textMessages + voiceMessages` is
strictly below the free `maxMessagesPerDay` (= 20 in `TIER_LIMITS.free`)
the quota gate accepts a text or voice request and increments the matching
counter (the resulting record is `bumpUsage` of the old one); once the sum
is at or above the limit, the request is rejected with HTTP 429,
`upgradePrompt: true`, and the current count, and the record is left
unchanged. -/
theorem C1_free_tier_daily_quota (req : QuotaRequest) (today : String)
    (s : Store) (type : RequestType)
    (htier : req.tier.getD "free" = "free")
    (htype : type = RequestType.text ∨ type = RequestType.voice) :
    (((getTodayUsage (req.userId.getD "anonymous") today s).1.textMessages : Int)
        + (getTodayUsage (req.userId.getD "anonymous") today s).1.voiceMessages
        < TIER_LIMITS_free.maxMessagesPerDay →
      (checkUsageQuotaCore type req today s).1 = .allow ∧
      (getTodayUsage (req.userId.getD "anonymous") today
          (checkUsageQuotaCore type req today s).2).1
        = bumpUsage (getTodayUsage (req.userId.getD "anonymous") today s).1
            type "free")
    ∧ (((getTodayUsage (req.userId.getD "anonymous") today s).1.textMessages : Int)
        + (getTodayUsage (req.userId.getD "anonymous") today s).1.voiceMessages
        ≥ TIER_LIMITS_free.maxMessagesPerDay →
      (checkUsageQuotaCore type req today s).1
        = .reject { status := 429, error := "Daily limit reached"
                    upgradePrompt := true, requiresPremium := false
                    limit := some TIER_LIMITS_free.maxMessagesPerDay
                    current := some
                      ((getTodayUsage (req.userId.getD "anonymous") today s).1.textMessages
                        + (getTodayUsage (req.userId.getD "anonymous") today s).1.voiceMessages) } ∧
      (getTodayUsage (req.userId.getD "anonymous") today
          (checkUsageQuotaCore type req today s).2).1
        = (getTodayUsage (req.userId.getD "anonymous") today s).1) := by
  rcases hgt : getTodayUsage (req.userId.getD "anonymous") today s with ⟨usage, s1⟩
  have hidem := getTodayUsage_idem (req.userId.getD "anonymous") today s
  rw [hgt] at hidem
  dsimp only at hidem ⊢
  constructor
  · intro hlt
    simp only [TIER_LIMITS_free] at hlt
    have hcore : checkUsageQuotaCore type req today s
        = (.allow, incrementUsage (req.userId.getD "anonymous") type "free" today s1) := by
      simp only [checkUsageQuotaCore, htier, hgt]
      rcases htype with h | h <;> subst h <;>
        simp [TIER_LIMITS_free, not_le.mpr hlt]
    rw [hcore]
    refine ⟨rfl, ?_⟩
    rw [getTodayUsage_after_increment, hidem]
  · intro hge
    simp only [TIER_LIMITS_free] at hge
    have hcore : checkUsageQuotaCore type req today s
        = (.reject { status := 429, error := "Daily limit reached"
                     upgradePrompt := true, requiresPremium := false
                     limit := some TIER_LIMITS_free.maxMessagesPerDay
                     current := some ((usage.textMessages : Int) + usage.voiceMessages) }, s1) := by
      simp only [checkUsageQuotaCore, htier, hgt]
      rcases htype with h | h <;> subst h <;>
        simp [TIER_LIMITS_free, hge]
    rw [hcore]
    constructor
    · simp
    · rw [hidem]

/-- Witness for C1 at the limit boundary: user `elder`, free tier, limit
20.  With 19 messages sent the 20th text message is accepted and the
counter reaches 20; with 20 messages sent the 21st is rejected with 429,
`upgradePrompt: true`, `limit: 20`, `current: 20`. -/
theorem C1_free_tier_daily_quota_witness :
    (((getTodayUsage "elder" "2025-06-01" store19).1.textMessages : Int)
        + (getTodayUsage "elder" "2025-06-01" store19).1.voiceMessages
        < TIER_LIMITS_free.maxMessagesPerDay)
    ∧ (checkUsageQuotaCore .text freeReq "2025-06-01" store19).1 = .allow
    ∧ (getTodayUsage "elder" "2025-06-01"
        (checkUsageQuotaCore .text freeReq "2025-06-01" store19).2).1.textMessages = 20
    ∧ (((getTodayUsage "elder" "2025-06-01" store20).1.textMessages : Int)
        + (getTodayUsage "elder" "2025-06-01" store20).1.voiceMessages
        ≥ TIER_LIMITS_free.maxMessagesPerDay)
    ∧ (checkUsageQuotaCore .text freeReq "2025-06-01" store20).1
        = .reject { status := 429, error := "Daily limit reached"
                    upgradePrompt := true, requiresPremium := false
                    limit := some 20, current := some 20 } := by
  have hacc := (C1_free_tier_daily_quota freeReq "2025-06-01" store19 .text
      rfl (Or.inl rfl)).1 (by decide)
  have hrej := (C1_free_tier_daily_quota freeReq "2025-06-01" store20 .text
      rfl (Or.inl rfl)).2 (by decide)
  exact ⟨by decide, hacc.1, by decide, by decide, hrej.1.trans (by decide)⟩

/-- C2 counterexample: the claim that both numeric limits of
`getTierFeatures` agree with `TIER_LIMITS` for both tiers is false at tier
`free`, field `maxMessagesPerDay`: the feature-flag table says 50 while the
gate's limit table says 20. -/
theorem C2_limits_mismatch_cex :
    ¬ ((getTierFeatures "free").maxMessagesPerDay
        = TIER_LIMITS_free.maxMessagesPerDay) := by decide

/-- C2 amended: for `premium` both numeric limits agree between
`getTierFeatures` and `TIER_LIMITS`, and for `free` the image-analysis
limits agree (both 0), but the free message limits differ:
`getTierFeatures` says 50 while `TIER_LIMITS` says 20. -/
theorem C2_limits_agreement_amended :
    (getTierFeatures "premium").maxMessagesPerDay
        = TIER_LIMITS_premium.maxMessagesPerDay
    ∧ (getTierFeatures "premium").maxImageAnalysisPerDay
        = TIER_LIMITS_premium.maxImageAnalysisPerDay
    ∧ (getTierFeatures "free").maxImageAnalysisPerDay
        = TIER_LIMITS_free.maxImageAnalysisPerDay
    ∧ (getTierFeatures "free").maxMessagesPerDay = 50
    ∧ TIER_LIMITS_free.maxMessagesPerDay = 20 := by decide

/-- C3 counterexample: the tier-policy lookups are not all total with a
`free` fallback: for the unrecognized tier string `gold`, the
`TIER_LIMITS` indexing performed by the response decorator yields
`undefined` and the decoration fails instead of returning the free
policy. -/
theorem C3_tier_lookup_cex :
    TIER_LIMITS "gold" = none
    ∧ addUsageStats ⟨some "u", some "gold"⟩ "2025-06-01" emptyStore
        (fun _ => none) = none :=
  ⟨rfl, rfl⟩

/-- C3 amended: `getTierFeatures` is total and returns the `free` policy
for every tier value other than `premium` (unrecognized values included);
an absent tier defaults to `free`, whose `TIER_LIMITS` entry exists; but
the decorator's `TIER_LIMITS` indexing is defined only for `free`,
`premium` and `family`, and yields `undefined` (an error, not the free
policy) on any other tier string. -/
theorem C3_tier_fallback_amended (tier : String) :
    (tier ≠ "premium" → getTierFeatures tier = getTierFeatures "free")
    ∧ TIER_LIMITS ((none : Option String).getD "free") = some TIER_LIMITS_free
    ∧ (tier ≠ "free" → tier ≠ "premium" → tier ≠ "family" →
        TIER_LIMITS tier = none) := by
  refine ⟨fun h => ?_, rfl, fun h1 h2 h3 => ?_⟩
  · simp [getTierFeatures, h]
  · simp [TIER_LIMITS, h1, h2, h3]

/-- Witness for the amended C3 at the unrecognized tier `gold`. -/
theorem C3_tier_fallback_witness :
    getTierFeatures "gold" = getTierFeatures "free"
    ∧ TIER_LIMITS "gold" = none :=
  ⟨(C3_tier_fallback_amended "gold").1 (by decide),
   (C3_tier_fallback_amended "gold").2.2 (by decide) (by decide) (by decide)⟩

/-- C4: for a free-tier user and any prior store, a screenshot or
scam-detection request is rejected with HTTP 403 and
`requiresPremium: true`, and the user's usage record for the day —
all four counters and `totalCost` — is unchanged. -/
theorem C4_free_tier_image_reject (req : QuotaRequest) (today : String)
    (s : Store) (type : RequestType)
    (htier : req.tier.getD "free" = "free")
    (htype : type = RequestType.screenshot ∨ type = RequestType.scam) :
    (checkUsageQuotaCore type req today s).1
      = .reject { status := 403, error := "Premium feature"
                  upgradePrompt := false, requiresPremium := true
                  limit := none, current := none }
    ∧ (getTodayUsage (req.userId.getD "anonymous") today
          (checkUsageQuotaCore type req today s).2).1
      = (getTodayUsage (req.userId.getD "anonymous") today s).1 := by
  rcases hgt : getTodayUsage (req.userId.getD "anonymous") today s with ⟨usage, s1⟩
  have hidem := getTodayUsage_idem (req.userId.getD "anonymous") today s
  rw [hgt] at hidem
  dsimp only at hidem ⊢
  have hcore : checkUsageQuotaCore type req today s
      = (.reject { status := 403, error := "Premium feature"
                   upgradePrompt := false, requiresPremium := true
                   limit := none, current := none }, s1) := by
    simp only [checkUsageQuotaCore, htier, hgt]
    rcases htype with h | h <;> subst h <;> simp
  rw [hcore]
  refine ⟨rfl, ?_⟩
  dsimp only
  rw [hidem]

/-- Witness for C4: user `elder`, free tier, zero prior usage, screenshot
request → 403 with `requiresPremium: true`, record unchanged. -/
theorem C4_free_tier_image_reject_witness :
    (checkUsageQuotaCore .screenshot freeReq "2025-06-01" emptyStore).1
      = .reject { status := 403, error := "Premium feature"
                  upgradePrompt := false, requiresPremium := true
                  limit := none, current := none }
    ∧ (getTodayUsage "elder" "2025-06-01"
        (checkUsageQuotaCore .screenshot freeReq "2025-06-01" emptyStore).2).1
      = (getTodayUsage "elder" "2025-06-01" emptyStore).1 :=
  C4_free_tier_image_reject freeReq "2025-06-01" emptyStore .screenshot
    rfl (Or.inl rfl)

/-- C5: for any user-day, after any sequence of accepted requests
(recorded through `incrementUsage`), `totalCost` equals its prior value
plus the sum of the per-request cost constants, so it is monotonically
non-decreasing; moreover the cost table is as claimed: free-tier text and
advanced-model text have different costs, voice has its own flat cost, and
screenshot and scam share the single higher `GPT4O_VISION` cost. -/
theorem C5_totalCost_sum (userId today : String)
    (reqs : List (RequestType × String)) (s : Store) :
    ((getTodayUsage userId today (applyRequests userId today reqs s)).1.totalCost
        = (getTodayUsage userId today s).1.totalCost
          + (reqs.map fun p => requestCost p.1 p.2).sum)
    ∧ (getTodayUsage userId today s).1.totalCost
        ≤ (getTodayUsage userId today (applyRequests userId today reqs s)).1.totalCost
    ∧ requestCost .text "free" = COSTS_GPT35_TEXT
    ∧ requestCost .text "premium" = COSTS_GPT4O_TEXT
    ∧ COSTS_GPT35_TEXT ≠ COSTS_GPT4O_TEXT
    ∧ (∀ tier, requestCost .voice tier = COSTS_WHISPER_VOICE)
    ∧ (∀ tier, requestCost .screenshot tier = COSTS_GPT4O_VISION
        ∧ requestCost .scam tier = COSTS_GPT4O_VISION)
    ∧ COSTS_GPT35_TEXT < COSTS_GPT4O_VISION
    ∧ COSTS_GPT4O_TEXT < COSTS_GPT4O_VISION
    ∧ COSTS_WHISPER_VOICE < COSTS_GPT4O_VISION := by
  have hsum := applyRequests_totalCost userId today reqs s
  refine ⟨hsum, ?_, rfl, rfl, by decide, fun _ => rfl,
    fun _ => ⟨rfl, rfl⟩, by decide, by decide, by decide⟩
  rw [hsum]
  exact Nat.le_add_right _ _

/-- C6: usage records are isolated per `(userId, date)`.  For calendar
dates in the source's fixed ten-character `YYYY-MM-DD` form, the key
construction `userId ++ ":" ++ date` is injective, so for two distinct
user-day pairs: the keys differ, incrementing one record leaves the raw
store entry of the other unchanged, reading the other user-day yields the
same record as before the increment, and today's read is unaffected by a
record stored under a different (e.g. prior-day) key. -/
theorem C6_per_user_day_isolation (u1 d1 u2 d2 : String)
    (hd1 : d1.length = 10) (hd2 : d2.length = 10)
    (hne : ¬(u1 = u2 ∧ d1 = d2))
    (ty : RequestType) (tier : String) (s : Store) (v : Usage) :
    getUsageKey u1 d1 ≠ getUsageKey u2 d2
    ∧ incrementUsage u1 ty tier d1 s (getUsageKey u2 d2)
        = s (getUsageKey u2 d2)
    ∧ (getTodayUsage u2 d2 (incrementUsage u1 ty tier d1 s)).1
        = (getTodayUsage u2 d2 s).1
    ∧ (getTodayUsage u2 d2 (storeSet s (getUsageKey u1 d1) v)).1
        = (getTodayUsage u2 d2 s).1 := by
  have hkey : getUsageKey u1 d1 ≠ getUsageKey u2 d2 := by
    intro h
    exact hne (getUsageKey_inj u1 d1 u2 d2 (hd1.trans hd2.symm) h)
  have hframe := incrementUsage_read_other u1 ty tier d1 s _ hkey.symm
  refine ⟨hkey, hframe, ?_, ?_⟩
  · rw [getTodayUsage_fst, getTodayUsage_fst, hframe]
  · rw [getTodayUsage_fst, getTodayUsage_fst,
      storeSet_read_other _ _ _ _ hkey.symm]

/-- Witness for C6: users `alice` and `bob` on the same day, and user
`alice` on a prior day versus 2025-06-02: increments to one record leave
the other unchanged. -/
theorem C6_per_user_day_isolation_witness :
    (getUsageKey "alice" "2025-06-01" ≠ getUsageKey "bob" "2025-06-01"
      ∧ (getTodayUsage "bob" "2025-06-01"
          (incrementUsage "alice" .text "free" "2025-06-01" emptyStore)).1
        = (getTodayUsage "bob" "2025-06-01" emptyStore).1)
    ∧ (getUsageKey "alice" "2025-06-01" ≠ getUsageKey "alice" "2025-06-02"
      ∧ (getTodayUsage "alice" "2025-06-02"
          (incrementUsage "alice" .voice "premium" "2025-06-01" store19)).1
        = (getTodayUsage "alice" "2025-06-02" store19).1) := by
  have h1 := C6_per_user_day_isolation "alice" "2025-06-01" "bob" "2025-06-01"
    (by decide) (by decide) (by decide) .text "free" emptyStore
    (emptyUsage "2025-06-01")
  have h2 := C6_per_user_day_isolation "alice" "2025-06-01" "alice" "2025-06-02"
    (by decide) (by decide) (by decide) .voice "premium" store19
    (emptyUsage "2025-06-01")
  exact ⟨⟨h1.1, h1.2.2.1⟩, ⟨h2.1, h2.2.2.1⟩⟩

/-- C7 counterexample: the decorator is not purely additive on every
field: a payload that already carries a `usage` field has that field
overwritten by the usage block, so the output does not contain the
original value. -/
theorem C7_usage_field_overwritten_cex :
    ((addUsageStats ⟨some "u", some "free"⟩ "2025-06-01" emptyStore
        payloadWithUsage).map fun p => p.1 "usage")
      ≠ some (payloadWithUsage "usage") := by decide

/-- C7 amended: whenever decoration succeeds, the output preserves every
field of the original payload except `usage`, which is bound (overwriting
any original `usage` field) to a block with
`messages = textMessages + voiceMessages`, `limit` the numeric tier limit
or the `unlimited` sentinel when it is −1, `remaining = max 0 (limit −
messages)` or the sentinel, and `cost` the accumulated `totalCost`
formatted to four fraction digits. -/
theorem C7_decorator_additive_amended (req : QuotaRequest) (today : String)
    (s : Store) (data out : Payload) (s1 : Store)
    (h : addUsageStats req today s data = some (out, s1)) :
    (∀ k, k ≠ "usage" → out k = data k)
    ∧ ∃ limits, TIER_LIMITS (req.tier.getD "free") = some limits
        ∧ out "usage" = some (.usage
            { today :=
                { messages :=
                    (getTodayUsage (req.userId.getD "anonymous") today s).1.textMessages
                      + (getTodayUsage (req.userId.getD "anonymous") today s).1.voiceMessages
                  limit := if limits.maxMessagesPerDay = -1 then .unlimited
                      else .num limits.maxMessagesPerDay
                  remaining := if limits.maxMessagesPerDay = -1 then .unlimited
                      else .num (max 0 (limits.maxMessagesPerDay
                        - ((getTodayUsage (req.userId.getD "anonymous") today s).1.textMessages
                          + (getTodayUsage (req.userId.getD "anonymous") today s).1.voiceMessages))) }
              cost := toFixed4
                  (getTodayUsage (req.userId.getD "anonymous") today s).1.totalCost }) := by
  unfold addUsageStats usageSnapshot at h
  dsimp only at h
  rcases hgt : getTodayUsage (req.userId.getD "anonymous") today s with ⟨usage, s'⟩
  rw [hgt] at h
  dsimp only at h ⊢
  cases hl : TIER_LIMITS (req.tier.getD "free") with
  | none => rw [hl] at h; simp at h
  | some limits =>
      rw [hl] at h
      simp only [Option.map_some', Option.some_inj, Prod.mk.injEq] at h
      obtain ⟨hout, hs⟩ := h
      refine ⟨fun k hk => ?_, limits, rfl, ?_⟩
      · rw [← hout]
        simp [hk]
      · rw [← hout]
        simp

/-- Witness for the amended C7: fresh free user `u`, base payload with one
`reply` field; decoration succeeds, keeps `reply`, and attaches the
freshly computed block. -/
theorem C7_decorator_additive_witness :
    addUsageStats ⟨some "u", some "free"⟩ "2025-06-01" emptyStore data0
      = some (out0, s1w)
    ∧ (∀ k, k ≠ "usage" → out0 k = data0 k)
    ∧ out0 "usage" = some (.usage block0) := by
  have happ := C7_decorator_additive_amended ⟨some "u", some "free"⟩
    "2025-06-01" emptyStore data0 out0 s1w rfl
  exact ⟨rfl, happ.1, rfl⟩

/-- C8: the gate's try/catch fails open — whenever the body of the check
throws an internal error, the middleware swallows it and lets the request
through (`next()`), whatever the user, tier or state. -/
theorem C8_fail_open
    (inner : Store → Except (String × Store) (QuotaOutcome × Store))
    (s s1 : Store) (e : String) (h : inner s = .error (e, s1)) :
    (quotaMiddleware inner s).1 = QuotaOutcome.allow := by
  simp [quotaMiddleware, h]

/-- Witness for C8: a body that throws on the empty store still results in
the request being allowed through. -/
theorem C8_fail_open_witness :
    ((fun st => (Except.error ("boom", st) :
        Except (String × Store) (QuotaOutcome × Store))) emptyStore
      = Except.error ("boom", emptyStore))
    ∧ (quotaMiddleware
        (fun st => Except.error ("boom", st)) emptyStore).1
      = QuotaOutcome.allow :=
  ⟨rfl, C8_fail_open (fun st => Except.error ("boom", st)) emptyStore
      emptyStore "boom" rfl⟩

/-- C9: applying the response decorator twice for the same user and tier
with no intervening store mutation yields identical decorated payloads
(usage snapshots included) and no further store change. -/
theorem C9_decorator_idempotent (req : QuotaRequest) (today : String)
    (s : Store) (d : Payload) (p1 p2 : Payload) (s1 s2 : Store)
    (h1 : addUsageStats req today s d = some (p1, s1))
    (h2 : addUsageStats req today s1 d = some (p2, s2)) :
    p1 = p2 ∧ s2 = s1 := by
  unfold addUsageStats at h1 h2
  cases hs : usageSnapshot req today s with
  | none => rw [hs] at h1; simp at h1
  | some q =>
      rw [hs] at h1
      simp only [Option.map_some', Option.some_inj, Prod.mk.injEq] at h1
      obtain ⟨hp1, hs1⟩ := h1
      have hq : usageSnapshot req today s = some (q.1, q.2) := by
        rw [hs]
      have hstable := usageSnapshot_stable req today s q.1 q.2 hq
      rw [hs1] at hstable
      rw [hstable] at h2
      simp only [Option.map_some', Option.some_inj, Prod.mk.injEq] at h2
      obtain ⟨hp2, hs2⟩ := h2
      constructor
      · rw [← hp1, ← hp2]
      · rw [← hs2]

/-- Witness for C9: decorating `data0` twice for fresh free user `u`
yields the same payload `out0` and the same store both times. -/
theorem C9_decorator_idempotent_witness :
    (addUsageStats ⟨some "u", some "free"⟩ "2025-06-01" emptyStore data0
        = some (out0, s1w))
    ∧ (addUsageStats ⟨some "u", some "free"⟩ "2025-06-01" s1w data0
        = some (out0, s1w))
    ∧ (out0 = out0 ∧ s1w = s1w) :=
  ⟨rfl, rfl,
   C9_decorator_idempotent ⟨some "u", some "free"⟩ "2025-06-01" emptyStore
     data0 out0 out0 s1w s1w rfl rfl⟩

/-- C10: when a request carries no `userId`, both the quota gate and the
response decorator substitute the literal `anonymous`, so all unidentified
callers share one usage record: an increment performed under one
such request's identity is visible (counters and cost) to a read under any
other, and both middlewares behave exactly as if `userId` were the literal
string `anonymous`. -/
theorem C10_anonymous_shared_quota (r1 r2 : QuotaRequest)
    (h1 : r1.userId = none) (h2 : r2.userId = none)
    (today : String) (s : Store) (ty : RequestType) (tier : String) :
    r1.userId.getD "anonymous" = "anonymous"
    ∧ r2.userId.getD "anonymous" = "anonymous"
    ∧ (getTodayUsage (r2.userId.getD "anonymous") today
          (incrementUsage (r1.userId.getD "anonymous") ty tier today s)).1.totalCost
        = (getTodayUsage (r2.userId.getD "anonymous") today s).1.totalCost
          + requestCost ty tier
    ∧ checkUsageQuotaCore ty r1 today s
        = checkUsageQuotaCore ty ⟨some "anonymous", r1.tier⟩ today s
    ∧ usageSnapshot r2 today s
        = usageSnapshot ⟨some "anonymous", r2.tier⟩ today s := by
  refine ⟨by simp [h1], by simp [h2], ?_, ?_, ?_⟩
  · simp only [h1, h2, Option.getD_none]
    rw [getTodayUsage_after_increment, bumpUsage_totalCost]
  · simp only [checkUsageQuotaCore, h1, Option.getD_none, Option.getD_some]
  · simp only [usageSnapshot, h2, Option.getD_none, Option.getD_some]

/-- Witness for C10: two distinct requests with absent `userId` share the
`anonymous` record — the first one's text increment is reflected in the
cost the second one reads. -/
theorem C10_anonymous_shared_quota_witness :
    ((⟨none, some "free"⟩ : QuotaRequest).userId.getD "anonymous" = "anonymous")
    ∧ ((⟨none, none⟩ : QuotaRequest).userId.getD "anonymous" = "anonymous")
    ∧ (getTodayUsage "anonymous" "2025-06-01"
          (incrementUsage "anonymous" .text "free" "2025-06-01" emptyStore)).1.totalCost
        = (getTodayUsage "anonymous" "2025-06-01" emptyStore).1.totalCost
          + requestCost .text "free" := by
  have h := C10_anonymous_shared_quota ⟨none, some "free"⟩ ⟨none, none⟩
    rfl rfl "2025-06-01" emptyStore .text "free"
  exact ⟨h.1, h.2.1, h.2.2.1⟩

end Nora
